import Mathlib

/-!
# TravelPlanner — verified model of the Plan aggregation core

Shallow embedding of the data model and derived properties defined in
`src/common/models.py` of the TravelPlanner repository.

Modelling conventions:
* Django model rows become Lean structures; the database is a `DB` record of
  row lists.
* `FloatField` values (costs, ratings) are modelled as `ℚ` (the concrete
  values in play are exactly representable).
* `DateField` values are whole days (`Int`); `DateTimeField` values are
  seconds (`Int`).  Python's `timedelta` normalisation gives
  `.days = ⌊t / 86400⌋` (floor) and `.seconds = t mod 86400 ∈ [0, 86400)`,
  modelled by `Int.fdiv` and `Int.emod`.
* Foreign keys are stored as the referenced primary key; `Plan.rooms`
  (many-to-many) is a list of `(plan name, room id)` pairs.
* `QuerySet.order_by` is modelled by a stable insertion sort on the single
  key field (`orderBy`); `.first()` / `.last()` become `head?` / `getLast?`.
* Fallible code (`ZeroDivisionError`, `raise ValueError`) is modelled with
  `Option` / `Except`.
-/

namespace TravelPlanner

/-- `Country` (models.py:20): `name` is the primary key. -/
structure Country where
  name : String
deriving DecidableEq

/-- `City` (models.py:59): `name` primary key, FK to `Country`. -/
structure City where
  name : String
  country : String
deriving DecidableEq

/-- `Sightseeing` (models.py:76): auto id, name, FK to city, cost, description, rating. -/
structure Sightseeing where
  id : Nat
  name : String
  city : String
  cost : ℚ
  description : String
  rating : ℚ
deriving DecidableEq

/-- `Hotel` (models.py:111): auto id, name, FK to city, rating. -/
structure Hotel where
  id : Nat
  name : String
  city : String
  rating : ℚ
deriving DecidableEq

/-- `Room` (models.py:153): auto id, FK to hotel, room type, date range, cost. -/
structure Room where
  id : Nat
  hotel : Nat
  room_type : String
  from_date : Int
  to_date : Int
  cost : ℚ
deriving DecidableEq

/-- `Airport` (models.py:198): `name` primary key, FK to `Country`. -/
structure Airport where
  name : String
  country : String
deriving DecidableEq

/-- `Flight` (models.py:229): `name` primary key, departure/arrival airports,
cost, departure/arrival date-times (seconds). -/
structure Flight where
  name : String
  departure : String
  arrival : String
  cost : ℚ
  departure_date_time : Int
  arrival_date_time : Int
deriving DecidableEq

/-- `Plan` (models.py:282): `name` is declared `primary_key=True`; `version`
defaults to 1.  The m2m `rooms` field lives in `DB.planRooms`. -/
structure Plan where
  name : String
  version : Int
deriving DecidableEq

/-- `FlightPlan` (models.py:402): join row Flight×Plan with an `order`. -/
structure FlightPlan where
  flight : String
  plan : String
  order : Int
deriving DecidableEq

/-- `SightseeingPlan` (models.py:446): join row Sightseeing×Plan with an `order`. -/
structure SightseeingPlan where
  sightseeing : Nat
  plan : String
  order : Int
deriving DecidableEq

/-- The database: one list of rows per model, plus the `Plan.rooms`
many-to-many through table. -/
structure DB where
  countries : List Country
  airports : List Airport
  flights : List Flight
  rooms : List Room
  sightseeingSpots : List Sightseeing
  plans : List Plan
  flightPlans : List FlightPlan
  sightseeingPlans : List SightseeingPlan
  planRooms : List (String × Nat)
deriving DecidableEq

/-- Python `timedelta(seconds := t).days`: floor of `t / 86400`. -/
def timedeltaDays (t : Int) : Int := Int.fdiv t 86400

/-- Python `timedelta(seconds := t).seconds`: sub-day component, in `[0, 86400)`. -/
def timedeltaSeconds (t : Int) : Int := t % 86400

/-- `Room.duration_in_days` (models.py:177): `(to_date - from_date).days`.
Date subtraction yields a whole-day timedelta, so this is exact. -/
def Room.duration_in_days (r : Room) : Int := r.to_date - r.from_date

/-- `Room.cost_per_day` (models.py:187): `cost / duration_in_days`.
Python raises `ZeroDivisionError` when the duration is 0, modelled by `none`. -/
def Room.cost_per_day (r : Room) : Option ℚ :=
  if r.duration_in_days = 0 then none
  else some (r.cost / (r.duration_in_days : ℚ))

/-- `Flight.duration_in_hours` (models.py:270):
`(arrival_date_time - departure_date_time).seconds / 3600`. -/
def Flight.duration_in_hours (f : Flight) : ℚ :=
  (timedeltaSeconds (f.arrival_date_time - f.departure_date_time) : ℚ) / 3600

/-- Resolve an airport name to its country name (FK traversal
`airport.country`); `none` when the airport row is absent. -/
def airportCountryName (db : DB) (a : String) : Option String :=
  (db.airports.find? (fun ap => ap.name == a)).map Airport.country

/-- `Plan.planes` (models.py:330): `Flight.objects.filter(flightplan__plan=self)`.
Each flight appears at most once since `(flight, plan)` is unique together. -/
def Plan.planesOf (db : DB) (p : Plan) : List Flight :=
  db.flights.filter (fun f =>
    db.flightPlans.any (fun fp => fp.flight == f.name && fp.plan == p.name))

/-- `Plan.rooms.all()` (models.py:303, use at models.py:372): the rooms
attached to the plan through the m2m table. -/
def Plan.roomsOf (db : DB) (p : Plan) : List Room :=
  db.rooms.filter (fun r =>
    db.planRooms.any (fun pr => pr.1 == p.name && pr.2 == r.id))

/-- Stable insertion of `x` into a list sorted ascending on `key`. -/
def insertByKey (key : α → Int) (x : α) : List α → List α
  | [] => [x]
  | y :: ys => if key x ≤ key y then x :: y :: ys else y :: insertByKey key x ys

/-- `QuerySet.order_by(field)`: sort ascending on a single integer key. -/
def orderBy (key : α → Int) : List α → List α
  | [] => []
  | x :: xs => insertByKey key x (orderBy key xs)

/-- `Plan.sightseeings` (models.py:343): iterate the `SightseeingPlan` rows of
this plan (default ordering: ascending `order`, models.py:472) and collect the
referenced `Sightseeing` rows. -/
def Plan.sightseeingsOf (db : DB) (p : Plan) : List Sightseeing :=
  (orderBy (fun sp => sp.order)
      (db.sightseeingPlans.filter (fun sp => sp.plan == p.name))).filterMap
    (fun sp => db.sightseeingSpots.find? (fun s => s.id == sp.sightseeing))

/-- `Plan.cost` (models.py:360): one accumulator summed over rooms, then
sightseeings, then flights, starting at 0. -/
def Plan.cost (db : DB) (p : Plan) : ℚ :=
  let c1 := (p.roomsOf db).foldl (fun c r => c + r.cost) 0
  let c2 := (p.sightseeingsOf db).foldl (fun c s => c + s.cost) c1
  (p.planesOf db).foldl (fun c f => c + f.cost) c2

/-- `Plan.duration_in_days` (models.py:380):
`last_plane = planes.order_by("arrival_date_time").last()`,
`first_plane = planes.order_by("departure_date_time").first()`;
raises `ValueError("No planes in the plan")` when either is missing, else
`(last_plane.arrival_date_time - first_plane.departure_date_time).days`. -/
def Plan.duration_in_days (db : DB) (p : Plan) : Except String Int :=
  match (orderBy (fun f => f.arrival_date_time) (p.planesOf db)).getLast?,
        (orderBy (fun f => f.departure_date_time) (p.planesOf db)).head? with
  | some lastPlane, some firstPlane =>
      .ok (timedeltaDays (lastPlane.arrival_date_time - firstPlane.departure_date_time))
  | _, _ => .error "No planes in the plan"

/-- The two country names contributed by one `FlightPlan` row in
`Plan.countries` (models.py:326-327):
`flight.departure.country` and `flight.arrival.country`. -/
def FlightPlan.flightCountryNames (db : DB) (fp : FlightPlan) : List String :=
  match db.flights.find? (fun f => f.name == fp.flight) with
  | none => []
  | some f =>
      (airportCountryName db f.departure).toList ++
        (airportCountryName db f.arrival).toList

/-- `Plan.countries` (models.py:315): the set of departure and arrival country
names over all `FlightPlan` rows of this plan (a Python `set`, modelled as a
deduplicated list). -/
def Plan.countriesOf (db : DB) (p : Plan) : List String :=
  ((db.flightPlans.filter (fun fp => fp.plan == p.name)).flatMap
    (fun fp => fp.flightCountryNames db)).dedup

/-- `Country.plans` (models.py:35):
`Plan.objects.filter(Q(flightplan__flight__departure__country=self) |
Q(flightplan__flight__arrival__country=self)).distinct()`. -/
def Country.plansOf (db : DB) (c : Country) : List Plan :=
  db.plans.filter (fun p =>
    db.flightPlans.any (fun fp =>
      fp.plan == p.name &&
        db.flights.any (fun f =>
          f.name == fp.flight &&
            (airportCountryName db f.departure == some c.name ||
              airportCountryName db f.arrival == some c.name))))

/-- The `primary_key=True` constraint on `Plan.name` (models.py:301):
plan names are pairwise distinct. -/
abbrev planPrimaryKeyOk (l : List Plan) : Prop := (l.map Plan.name).Nodup

/-- The `unique_together = ("name", "version")` constraint (models.py:313):
(name, version) pairs are pairwise distinct. -/
abbrev planUniqueTogetherOk (l : List Plan) : Prop :=
  (l.map (fun p => (p.name, p.version))).Nodup

deriving instance DecidableEq for Except

/-! ### Concrete rows and databases used in witnesses -/

/-- A flight taking 26 hours (dep 0s, arr 93600s). -/
def flight26h : Flight :=
  { name := "Flight26", departure := "Airport1", arrival := "Airport2",
    cost := 500, departure_date_time := 0, arrival_date_time := 93600 }

/-- A flight taking 2 hours (dep 0s, arr 7200s). -/
def flight2h : Flight :=
  { name := "Flight2h", departure := "Airport1", arrival := "Airport2",
    cost := 100, departure_date_time := 0, arrival_date_time := 7200 }

/-- A flight whose arrival is one hour before its departure. -/
def flightNegDelta : Flight :=
  { name := "FlightNeg", departure := "Airport1", arrival := "Airport2",
    cost := 100, departure_date_time := 3600, arrival_date_time := 0 }

/-- A room with an empty date range (from_date = to_date). -/
def roomZeroDays : Room :=
  { id := 9, hotel := 1, room_type := "single",
    from_date := 10, to_date := 10, cost := 100 }

/-- A room booked for 3 days at total cost 300. -/
def roomThreeDays : Room :=
  { id := 10, hotel := 1, room_type := "double",
    from_date := 10, to_date := 13, cost := 300 }

/-- The plan used in the concrete databases below. -/
def planP1 : Plan := { name := "Plan1", version := 1 }

/-- Database for the cost scenario: Plan1 with rooms of cost 100 and 200, a
sightseeing of cost 50 and a flight of cost 300. -/
def dbCost : DB :=
  { countries := [⟨"Country1"⟩, ⟨"Country2"⟩]
    airports := [⟨"Airport1", "Country1"⟩, ⟨"Airport2", "Country2"⟩]
    flights := [{ name := "Flight1", departure := "Airport1", arrival := "Airport2",
                  cost := 300, departure_date_time := 36000, arrival_date_time := 50400 }]
    rooms := [{ id := 1, hotel := 1, room_type := "single",
                from_date := 0, to_date := 2, cost := 100 },
              { id := 2, hotel := 1, room_type := "double",
                from_date := 0, to_date := 2, cost := 200 }]
    sightseeingSpots := [{ id := 1, name := "Spot1", city := "City1",
                           cost := 50, description := "d", rating := 4 }]
    plans := [planP1]
    flightPlans := [{ flight := "Flight1", plan := "Plan1", order := 1 }]
    sightseeingPlans := [{ sightseeing := 1, plan := "Plan1", order := 1 }]
    planRooms := [("Plan1", 1), ("Plan1", 2)] }

/-- Database holding a plan with no rooms, no sightseeings and no flights. -/
def dbEmpty : DB :=
  { countries := [], airports := [], flights := [], rooms := [],
    sightseeingSpots := [], plans := [{ name := "Plan0", version := 1 }],
    flightPlans := [], sightseeingPlans := [], planRooms := [] }

/-- Two would-be Plans sharing a name across different versions. -/
def planA1 : Plan := { name := "PlanA", version := 1 }

/-- Second version of the same plan name. -/
def planA2 : Plan := { name := "PlanA", version := 2 }

/-- A plan with a different name. -/
def planB : Plan := { name := "PlanB", version := 1 }

/-- Database for the duration scenario: Plan1 with Flight1
(dep 2023-01-01T10:00 = 36000s, arr 2023-01-01T14:00 = 50400s) and Flight2
(dep 2023-01-10T16:00 = 835200s, arr 2023-01-10T20:00 = 849600s). -/
def dbFlights : DB :=
  { countries := [⟨"Country1"⟩, ⟨"Country2"⟩]
    airports := [⟨"Airport1", "Country1"⟩, ⟨"Airport2", "Country2"⟩]
    flights := [{ name := "Flight1", departure := "Airport1", arrival := "Airport2",
                  cost := 300, departure_date_time := 36000, arrival_date_time := 50400 },
                { name := "Flight2", departure := "Airport2", arrival := "Airport1",
                  cost := 400, departure_date_time := 835200, arrival_date_time := 849600 }]
    rooms := []
    sightseeingSpots := []
    plans := [planP1]
    flightPlans := [{ flight := "Flight1", plan := "Plan1", order := 1 },
                    { flight := "Flight2", plan := "Plan1", order := 2 }]
    sightseeingPlans := []
    planRooms := [] }

/-! ### Helper lemmas -/

theorem foldl_add_map_sum (f : α → ℚ) (l : List α) (c : ℚ) :
    l.foldl (fun acc x => acc + f x) c = c + (l.map f).sum := by
  induction l generalizing c with
  | nil => simp
  | cons x xs ih => simp only [List.foldl_cons, List.map_cons, List.sum_cons, ih]; ring

theorem insertByKey_ne_nil (key : α → Int) (x : α) (l : List α) :
    insertByKey key x l ≠ [] := by
  cases l with
  | nil => simp [insertByKey]
  | cons y ys =>
    simp only [insertByKey]
    split <;> simp

theorem insertByKey_perm (key : α → Int) (x : α) (l : List α) :
    List.Perm (insertByKey key x l) (x :: l) := by
  induction l with
  | nil => exact List.Perm.refl _
  | cons y ys ih =>
    simp only [insertByKey]
    split
    · exact List.Perm.refl _
    · exact (ih.cons y).trans (List.Perm.swap x y ys)

theorem orderBy_perm (key : α → Int) (l : List α) : List.Perm (orderBy key l) l := by
  induction l with
  | nil => exact List.Perm.refl _
  | cons x xs ih => exact (insertByKey_perm key x (orderBy key xs)).trans (ih.cons x)

theorem orderBy_eq_nil_iff {key : α → Int} {l : List α} : orderBy key l = [] ↔ l = [] := by
  cases l with
  | nil => simp [orderBy]
  | cons x xs =>
    simp only [orderBy]
    exact ⟨fun hh => absurd hh (insertByKey_ne_nil key x _), fun hh => by cases hh⟩

theorem insertByKey_pairwise {key : α → Int} {x : α} {l : List α}
    (h : l.Pairwise (fun a b => key a ≤ key b)) :
    (insertByKey key x l).Pairwise (fun a b => key a ≤ key b) := by
  induction l with
  | nil => simp [insertByKey]
  | cons y ys ih =>
    rcases List.pairwise_cons.mp h with ⟨hy, hys⟩
    simp only [insertByKey]
    by_cases hc : key x ≤ key y
    · rw [if_pos hc]
      refine List.pairwise_cons.mpr ⟨?_, h⟩
      intro z hz
      rcases List.mem_cons.mp hz with rfl | hzys
      · exact hc
      · exact hc.trans (hy z hzys)
    · rw [if_neg hc]
      have hyx : key y ≤ key x := le_of_not_le hc
      refine List.pairwise_cons.mpr ⟨?_, ih hys⟩
      intro z hz
      rcases List.mem_cons.mp ((insertByKey_perm key x ys).mem_iff.mp hz) with rfl | hzys
      · exact hyx
      · exact hy z hzys

theorem orderBy_pairwise (key : α → Int) (l : List α) :
    (orderBy key l).Pairwise (fun a b => key a ≤ key b) := by
  induction l with
  | nil => exact List.Pairwise.nil
  | cons x xs ih => exact insertByKey_pairwise ih

theorem pairwise_getLast?_ub {R : α → α → Prop} :
    ∀ {l : List α} {x : α}, l.Pairwise R → l.getLast? = some x → ∀ y ∈ l, y = x ∨ R y x := by
  intro l
  induction l with
  | nil => intro x hp h; simp at h
  | cons a t ih =>
    intro x hp h y hy
    rcases List.pairwise_cons.mp hp with ⟨ha, ht⟩
    cases t with
    | nil =>
      simp only [List.getLast?_singleton, Option.some.injEq] at h
      rcases List.mem_singleton.mp hy with rfl
      exact Or.inl h
    | cons b t2 =>
      rw [List.getLast?_cons_cons] at h
      rcases List.mem_cons.mp hy with rfl | hyt
      · exact Or.inr (ha x (List.mem_of_getLast?_eq_some h))
      · exact ih ht h y hyt

theorem pairwise_head?_lb {R : α → α → Prop} {l : List α} {x : α}
    (hp : l.Pairwise R) (h : l.head? = some x) : ∀ y ∈ l, x = y ∨ R x y := by
  cases l with
  | nil => simp at h
  | cons a t =>
    simp only [List.head?_cons, Option.some.injEq] at h
    subst h
    intro y hy
    rcases List.mem_cons.mp hy with rfl | hyt
    · exact Or.inl rfl
    · exact Or.inr ((List.pairwise_cons.mp hp).1 y hyt)

theorem find?_eq_some_of_exists {p : α → Bool} {l : List α} (h : ∃ x ∈ l, p x = true) :
    ∃ y, l.find? p = some y ∧ y ∈ l ∧ p y = true := by
  cases hf : l.find? p with
  | none =>
    obtain ⟨x, hx, hpx⟩ := h
    exact absurd hpx (by simpa using (List.find?_eq_none.mp hf) x hx)
  | some y => exact ⟨y, rfl, List.mem_of_find?_eq_some hf, List.find?_some hf⟩

/-- When the plan has at least one flight, both orderings are non-empty, so
`duration_in_days` takes the `.ok` branch on the last/first elements. -/
theorem duration_in_days_ok_of_ne_nil (db : DB) (p : Plan) (h : p.planesOf db ≠ []) :
    ∃ lp fp0,
      (orderBy (fun f => f.arrival_date_time) (p.planesOf db)).getLast? = some lp ∧
      (orderBy (fun f => f.departure_date_time) (p.planesOf db)).head? = some fp0 ∧
      p.duration_in_days db =
        Except.ok (timedeltaDays (lp.arrival_date_time - fp0.departure_date_time)) := by
  have h1ne : orderBy (fun f => f.arrival_date_time) (p.planesOf db) ≠ [] :=
    fun hh => h (orderBy_eq_nil_iff.mp hh)
  have h2ne : orderBy (fun f => f.departure_date_time) (p.planesOf db) ≠ [] :=
    fun hh => h (orderBy_eq_nil_iff.mp hh)
  obtain ⟨lp, hlp⟩ : ∃ a, (orderBy (fun f => f.arrival_date_time) (p.planesOf db)).getLast? = some a := by
    cases hca : (orderBy (fun f => f.arrival_date_time) (p.planesOf db)).getLast? with
    | none => exact absurd (List.getLast?_eq_none_iff.mp hca) h1ne
    | some a => exact ⟨a, rfl⟩
  obtain ⟨fp0, hfp0⟩ : ∃ a, (orderBy (fun f => f.departure_date_time) (p.planesOf db)).head? = some a := by
    cases hca : (orderBy (fun f => f.departure_date_time) (p.planesOf db)).head? with
    | none => exact absurd (List.head?_eq_none_iff.mp hca) h2ne
    | some a => exact ⟨a, rfl⟩
  refine ⟨lp, fp0, hlp, hfp0, ?_⟩
  simp only [Plan.duration_in_days, hlp, hfp0]

/-! ### Claims -/

/-- C1: for every Plan, `cost` is the sum of the costs of its rooms plus the
costs of its sightseeings plus the costs of its flights; a plan with nothing
attached has cost 0, and the scenario plan (rooms 100 and 200, sightseeing 50,
flight 300) has cost 650. -/
theorem plan_cost_eq_sum_of_parts :
    (∀ (db : DB) (p : Plan),
        p.cost db =
          ((p.roomsOf db).map Room.cost).sum +
            ((p.sightseeingsOf db).map Sightseeing.cost).sum +
            ((p.planesOf db).map Flight.cost).sum) ∧
    Plan.cost dbEmpty { name := "Plan0", version := 1 } = 0 ∧
    Plan.cost dbCost planP1 = 650 := by
  refine ⟨fun db p => ?_, ?_, ?_⟩
  · simp only [Plan.cost]
    rw [foldl_add_map_sum, foldl_add_map_sum, foldl_add_map_sum]
    ring
  · norm_num [Plan.cost, Plan.roomsOf, Plan.sightseeingsOf, Plan.planesOf, dbEmpty, orderBy]
  · norm_num [Plan.cost, Plan.roomsOf, Plan.sightseeingsOf, Plan.planesOf, dbCost, planP1,
      orderBy, insertByKey, List.filterMap_cons]

/-- C2: for every Plan with at least one flight, `duration_in_days` is the
whole-day difference between the latest arrival over its flights and the
earliest departure over its flights, two independent single-field extrema that
need not come from the same flight. -/
theorem plan_duration_latest_arrival_sub_earliest_departure
    (db : DB) (p : Plan) (h : p.planesOf db ≠ []) :
    ∃ lastPlane ∈ p.planesOf db, ∃ firstPlane ∈ p.planesOf db,
      (∀ g ∈ p.planesOf db, g.arrival_date_time ≤ lastPlane.arrival_date_time) ∧
      (∀ g ∈ p.planesOf db, firstPlane.departure_date_time ≤ g.departure_date_time) ∧
      p.duration_in_days db =
        Except.ok (timedeltaDays
          (lastPlane.arrival_date_time - firstPlane.departure_date_time)) := by
  obtain ⟨lp, fp0, hlp, hfp0, hdur⟩ := duration_in_days_ok_of_ne_nil db p h
  have hlp_mem : lp ∈ p.planesOf db :=
    (orderBy_perm (fun f => f.arrival_date_time) (p.planesOf db)).mem_iff.mp
      (List.mem_of_getLast?_eq_some hlp)
  have hfp0_mem : fp0 ∈ p.planesOf db :=
    (orderBy_perm (fun f => f.departure_date_time) (p.planesOf db)).mem_iff.mp
      (List.mem_of_mem_head? (hfp0 ▸ Option.mem_def.mpr rfl))
  refine ⟨lp, hlp_mem, fp0, hfp0_mem, ?_, ?_, hdur⟩
  · intro g hg
    have hgs : g ∈ orderBy (fun f => f.arrival_date_time) (p.planesOf db) :=
      (orderBy_perm (fun f => f.arrival_date_time) (p.planesOf db)).mem_iff.mpr hg
    rcases pairwise_getLast?_ub (orderBy_pairwise (fun f => f.arrival_date_time)
        (p.planesOf db)) hlp g hgs with rfl | hle
    · exact le_refl _
    · exact hle
  · intro g hg
    have hgs : g ∈ orderBy (fun f => f.departure_date_time) (p.planesOf db) :=
      (orderBy_perm (fun f => f.departure_date_time) (p.planesOf db)).mem_iff.mpr hg
    rcases pairwise_head?_lb (orderBy_pairwise (fun f => f.departure_date_time)
        (p.planesOf db)) hfp0 g hgs with heq | hle
    · exact heq ▸ le_refl _
    · exact hle

/-- Witness for C2 at the two-flight scenario database; the resulting duration
is 9 whole days. -/
theorem plan_duration_latest_arrival_sub_earliest_departure_witness :
    Plan.planesOf dbFlights planP1 ≠ [] ∧
    (∃ lastPlane ∈ Plan.planesOf dbFlights planP1, ∃ firstPlane ∈ Plan.planesOf dbFlights planP1,
      (∀ g ∈ Plan.planesOf dbFlights planP1,
        g.arrival_date_time ≤ lastPlane.arrival_date_time) ∧
      (∀ g ∈ Plan.planesOf dbFlights planP1,
        firstPlane.departure_date_time ≤ g.departure_date_time) ∧
      Plan.duration_in_days dbFlights planP1 =
        Except.ok (timedeltaDays
          (lastPlane.arrival_date_time - firstPlane.departure_date_time))) ∧
    Plan.duration_in_days dbFlights planP1 = Except.ok 9 :=
  ⟨by decide,
    plan_duration_latest_arrival_sub_earliest_departure dbFlights planP1 (by decide),
    by decide⟩

/-- C3: `duration_in_days` fails with the checked error "No planes in the
plan" exactly when the plan has no associated flights; with at least one
flight it returns a value. -/
theorem plan_duration_error_iff_no_planes (db : DB) (p : Plan) :
    (p.duration_in_days db = Except.error "No planes in the plan" ↔ p.planesOf db = []) ∧
    (p.planesOf db ≠ [] → ∃ n, p.duration_in_days db = Except.ok n) := by
  by_cases h : p.planesOf db = []
  · refine ⟨?_, fun hn => absurd h hn⟩
    simp [Plan.duration_in_days, h, orderBy]
  · obtain ⟨lp, fp0, _, _, hdur⟩ := duration_in_days_ok_of_ne_nil db p h
    refine ⟨?_, fun _ => ⟨_, hdur⟩⟩
    rw [hdur]
    simp [h]

/-- Witness for C3: at the two-flight database the hypothesis of the second
part holds and a value is returned. -/
theorem plan_duration_error_iff_no_planes_witness :
    Plan.planesOf dbFlights planP1 ≠ [] ∧
      ∃ n, Plan.duration_in_days dbFlights planP1 = Except.ok n :=
  ⟨by decide, (plan_duration_error_iff_no_planes dbFlights planP1).2 (by decide)⟩

/-- C4: `Room.cost_per_day` is the division-by-zero failure (`none`) exactly
when `duration_in_days = 0`, in particular whenever `from_date = to_date`;
otherwise it returns `cost / duration_in_days`. -/
theorem room_cost_per_day_div_by_zero (r : Room) :
    (r.cost_per_day = none ↔ r.duration_in_days = 0) ∧
    (r.from_date = r.to_date → r.cost_per_day = none) ∧
    (r.duration_in_days ≠ 0 → r.cost_per_day = some (r.cost / (r.duration_in_days : ℚ))) := by
  refine ⟨?_, fun h => ?_, fun h => ?_⟩
  · by_cases h : r.duration_in_days = 0 <;> simp [Room.cost_per_day, h]
  · have hz : r.duration_in_days = 0 := by
      simp [Room.duration_in_days, h]
    simp [Room.cost_per_day, hz]
  · simp [Room.cost_per_day, h]

/-- Witness for C4 at two concrete rooms: one with an empty date range, one
with a 3-day range at cost 300. -/
theorem room_cost_per_day_div_by_zero_witness :
    (roomZeroDays.from_date = roomZeroDays.to_date ∧ roomZeroDays.cost_per_day = none) ∧
    (roomThreeDays.duration_in_days ≠ 0 ∧
      roomThreeDays.cost_per_day = some (roomThreeDays.cost / (roomThreeDays.duration_in_days : ℚ))) :=
  ⟨⟨by decide, (room_cost_per_day_div_by_zero roomZeroDays).2.1 (by decide)⟩,
    ⟨by decide, (room_cost_per_day_div_by_zero roomThreeDays).2.2 (by decide)⟩⟩

/-- C5: `Country.plans` holds exactly the stored Plans linked by some
FlightPlan row to a Flight departing from or arriving at an Airport of this
country, and (under the Plan primary-key constraint) without duplicates. -/
theorem country_plans_characterisation (db : DB) (c : Country) (p : Plan) :
    (p ∈ c.plansOf db ↔
      p ∈ db.plans ∧ ∃ fp ∈ db.flightPlans, fp.plan = p.name ∧
        ∃ f ∈ db.flights, f.name = fp.flight ∧
          (airportCountryName db f.departure = some c.name ∨
            airportCountryName db f.arrival = some c.name)) ∧
    (planPrimaryKeyOk db.plans → (c.plansOf db).Nodup) := by
  constructor
  · simp only [Country.plansOf, List.mem_filter, List.any_eq_true, Bool.and_eq_true,
      Bool.or_eq_true, beq_iff_eq]
  · intro h
    exact (List.Nodup.of_map Plan.name h).filter _

/-- Witness for C5: at the two-flight database the primary-key constraint
holds and Country1's plan list is duplicate-free. -/
theorem country_plans_characterisation_witness :
    planPrimaryKeyOk dbFlights.plans ∧
      (Country.plansOf dbFlights ⟨"Country1"⟩).Nodup :=
  ⟨by decide,
    (country_plans_characterisation dbFlights ⟨"Country1"⟩ planP1).2 (by decide)⟩

/-- C6 counterexample: `Plan.name` is declared `primary_key=True`
(models.py:301), so two distinct Plans with the same name and different
versions violate the table's primary-key constraint and cannot coexist. -/
theorem plan_same_name_versions_cannot_coexist :
    planA1 ≠ planA2 ∧ planA1.name = planA2.name ∧ planA1.version ≠ planA2.version ∧
      ¬ planPrimaryKeyOk [planA1, planA2] := by decide

/-- C6 (amended): Plan identity is `name` alone; the `(name, version)`
unique-together constraint is implied by the name primary key, and two stored
Plans with the same name are equal. -/
theorem plan_identity_is_name (l : List Plan) (h : planPrimaryKeyOk l) :
    planUniqueTogetherOk l ∧ ∀ p1 ∈ l, ∀ p2 ∈ l, p1.name = p2.name → p1 = p2 := by
  constructor
  · have h2 : ((l.map (fun p => (p.name, p.version))).map Prod.fst).Nodup := by
      rw [List.map_map]
      exact h
    exact List.Nodup.of_map Prod.fst h2
  · intro p1 h1 p2 h2 hname
    exact List.inj_on_of_nodup_map h h1 h2 hname

/-- Witness for C6's amended statement on a concrete two-plan table. -/
theorem plan_identity_is_name_witness :
    planPrimaryKeyOk [planA1, planB] ∧ planUniqueTogetherOk [planA1, planB] :=
  ⟨by decide, (plan_identity_is_name [planA1, planB] (by decide)).1⟩

/-- C7: `Flight.duration_in_hours` reads only the sub-day seconds component of
the timedelta divided by 3600, so adding a whole day to the elapsed time does
not change the result, and the concrete 26-hour flight reports 2 hours. -/
theorem flight_duration_truncates_full_days :
    (∀ f : Flight,
        f.duration_in_hours =
          (timedeltaSeconds (f.arrival_date_time - f.departure_date_time) : ℚ) / 3600) ∧
    (∀ f g : Flight,
        g.arrival_date_time - g.departure_date_time =
          f.arrival_date_time - f.departure_date_time + 86400 →
        g.duration_in_hours = f.duration_in_hours) ∧
    flight26h.duration_in_hours = 2 := by
  refine ⟨fun f => rfl, fun f g h => ?_, ?_⟩
  · simp only [Flight.duration_in_hours, timedeltaSeconds, h, Int.add_emod_self]
  · norm_num [Flight.duration_in_hours, flight26h, timedeltaSeconds]

/-- Witness for C7: the 26-hour flight's elapsed time exceeds the 2-hour
flight's by exactly one day, and both report the same duration. -/
theorem flight_duration_truncates_full_days_witness :
    (flight26h.arrival_date_time - flight26h.departure_date_time =
        flight2h.arrival_date_time - flight2h.departure_date_time + 86400) ∧
    flight26h.duration_in_hours = flight2h.duration_in_hours :=
  ⟨by decide, flight_duration_truncates_full_days.2.1 flight2h flight26h (by decide)⟩

/-- C8: when the duration is non-zero, `cost_per_day` succeeds and multiplying
it back by the duration recovers the room's cost (exactly, in `ℚ`). -/
theorem room_cost_per_day_mul_duration (r : Room) (h : r.duration_in_days ≠ 0) :
    ∃ q, r.cost_per_day = some q ∧ q * (r.duration_in_days : ℚ) = r.cost := by
  refine ⟨r.cost / (r.duration_in_days : ℚ), ?_, ?_⟩
  · simp [Room.cost_per_day, h]
  · exact div_mul_cancel₀ _ (Int.cast_ne_zero.mpr h)

/-- Witness for C8 at the 3-day, cost-300 room. -/
theorem room_cost_per_day_mul_duration_witness :
    roomThreeDays.duration_in_days ≠ 0 ∧
      ∃ q, roomThreeDays.cost_per_day = some q ∧
        q * (roomThreeDays.duration_in_days : ℚ) = roomThreeDays.cost :=
  ⟨by decide, room_cost_per_day_mul_duration roomThreeDays (by decide)⟩

/-- C10: for every Flight, whatever its timestamps, `duration_in_hours` lies in
`[0, 24)`; in particular the flight arriving one hour before it departs
reports 23 hours. -/
theorem flight_duration_in_hours_nonneg_lt_24 :
    (∀ f : Flight, 0 ≤ f.duration_in_hours ∧ f.duration_in_hours < 24) ∧
    flightNegDelta.duration_in_hours = 23 := by
  constructor
  · intro f
    have h0 : (0 : ℤ) ≤
        timedeltaSeconds (f.arrival_date_time - f.departure_date_time) :=
      Int.emod_nonneg _ (by norm_num)
    have h1 : timedeltaSeconds (f.arrival_date_time - f.departure_date_time) < 86400 :=
      Int.emod_lt_of_pos _ (by norm_num)
    have h0q : (0 : ℚ) ≤
        (timedeltaSeconds (f.arrival_date_time - f.departure_date_time) : ℚ) := by
      exact_mod_cast h0
    have h1q : (timedeltaSeconds (f.arrival_date_time - f.departure_date_time) : ℚ) < 86400 := by
      exact_mod_cast h1
    constructor
    · exact div_nonneg h0q (by norm_num)
    · rw [Flight.duration_in_hours, div_lt_iff₀ (by norm_num : (0 : ℚ) < 3600)]
      linarith
  · norm_num [Flight.duration_in_hours, flightNegDelta, timedeltaSeconds]

/-- C9: for a stored Plan and any Country, the country's name appears in
`Plan.countries` exactly when the plan appears in `Country.plans`; both reduce
to the existence of a FlightPlan row joining the plan to a flight departing
from or arriving at an airport of that country. -/
theorem plan_countries_iff_country_plans (db : DB) (p : Plan) (c : Country)
    (hnames : (db.flights.map Flight.name).Nodup) (hp : p ∈ db.plans) :
    c.name ∈ p.countriesOf db ↔ p ∈ c.plansOf db := by
  constructor
  · intro h
    rw [Plan.countriesOf] at h
    obtain ⟨fp, hfpf, hcmem⟩ := List.mem_flatMap.mp (List.mem_dedup.mp h)
    obtain ⟨hfp_mem, hfp_plan⟩ := List.mem_filter.mp hfpf
    cases hfind : db.flights.find? (fun f => f.name == fp.flight) with
    | none =>
      simp only [FlightPlan.flightCountryNames, hfind] at hcmem
      exact absurd hcmem (List.not_mem_nil _)
    | some f =>
      simp only [FlightPlan.flightCountryNames, hfind] at hcmem
      have hf_mem : f ∈ db.flights := List.mem_of_find?_eq_some hfind
      have hf_name : (f.name == fp.flight) = true := by
        have hps := List.find?_some hfind
        simpa using hps
      simp only [Country.plansOf, List.mem_filter, List.any_eq_true, Bool.and_eq_true,
        Bool.or_eq_true]
      refine ⟨hp, fp, hfp_mem, hfp_plan, f, hf_mem, hf_name, ?_⟩
      rcases List.mem_append.mp hcmem with hdep | harr
      · exact Or.inl (beq_iff_eq.mpr (Option.mem_def.mp (Option.mem_toList.mp hdep)))
      · exact Or.inr (beq_iff_eq.mpr (Option.mem_def.mp (Option.mem_toList.mp harr)))
  · intro h
    simp only [Country.plansOf, List.mem_filter, List.any_eq_true, Bool.and_eq_true,
      Bool.or_eq_true] at h
    obtain ⟨_, fp, hfp_mem, hplan_beq, f, hf_mem, hname_beq, hor⟩ := h
    obtain ⟨f2, hfind, hf2_mem, hf2_name⟩ :=
      find?_eq_some_of_exists ⟨f, hf_mem, hname_beq⟩ (p := fun f2 => f2.name == fp.flight)
    have hff : f2 = f := by
      refine List.inj_on_of_nodup_map hnames hf2_mem hf_mem ?_
      have h1 : f2.name = fp.flight := by simpa using hf2_name
      have h2 : f.name = fp.flight := by simpa using hname_beq
      rw [h1, h2]
    subst hff
    rw [Plan.countriesOf]
    rw [List.mem_dedup]
    refine List.mem_flatMap.mpr ⟨fp, List.mem_filter.mpr ⟨hfp_mem, hplan_beq⟩, ?_⟩
    simp only [FlightPlan.flightCountryNames, hfind]
    rcases hor with hdep | harr
    · refine List.mem_append.mpr (Or.inl ?_)
      exact Option.mem_toList.mpr (Option.mem_def.mpr (beq_iff_eq.mp hdep))
    · refine List.mem_append.mpr (Or.inr ?_)
      exact Option.mem_toList.mpr (Option.mem_def.mpr (beq_iff_eq.mp harr))

/-- Witness for C9: at the two-flight database, Country1 appears among Plan1's
countries and Plan1 appears among Country1's plans. -/
theorem plan_countries_iff_country_plans_witness :
    (dbFlights.flights.map Flight.name).Nodup ∧ planP1 ∈ dbFlights.plans ∧
      ("Country1" ∈ Plan.countriesOf dbFlights planP1 ↔
        planP1 ∈ Country.plansOf dbFlights ⟨"Country1"⟩) :=
  ⟨by decide, by decide,
    plan_countries_iff_country_plans dbFlights planP1 ⟨"Country1"⟩ (by decide) (by decide)⟩

end TravelPlanner
